import Mathlib

/-!
# rabbit / zlog: error reporting, panic recovery, access logging, request ids

A shallow embedding of `zlog/check.go` and `zlog/zaplogger.go`.

* A Go `panic` is an explicit result: every handler returns either normally or
  with a raised value, in both cases together with the state it left behind.
* The `*gin.Context` argument is a pointer that may be nil (`CtxPtr`); the
  context it points to lives in the state.
* Functions of external packages that the code only calls (encoding/json,
  time formatting, httputil) are parameters, collected in `Lib`; what the Go
  runtime reports about the call stack is a parameter too (`GoStack`).
-/

namespace zlog

/-! ## Go values -/

/-- A byte slice. -/
abbrev Bytes := List UInt8

/-- A non-nil Go `error`; `text` is what `Error()` returns. A possibly nil
`error` is an `Option GoError`. -/
structure GoError where
  text : String
deriving DecidableEq, Repr

/-- A decoded JSON value, as encoding/json stores it in an `interface{}`. -/
inductive JValue where
  | null
  | bool (b : Bool)
  | number (literal : String)
  | str (s : String)
  | arr (xs : List JValue)
  | obj (kvs : List (String × JValue))

/-- A `map[string]interface{}`; `none` is the nil map. -/
abbrev GoMap := Option (List (String × JValue))

/-- A `[]map[string]interface{}`; `none` is the nil slice. -/
abbrev GoMapSlice := Option (List GoMap)

/-- The `http.Header` map, keys in canonical form. -/
abbrev Header := List (String × List String)

/-- Go `Header.Get`: the first value stored under the key, `""` when there is none. -/
def Header.Get (h : Header) (key : String) : String :=
  match h.lookup key with
  | some (v :: _) => v
  | _ => ""

/-- Go `Header.Set`: the key now holds exactly the one value. -/
def Header.Set (h : Header) (key value : String) : Header :=
  (key, [value]) :: h.filter (fun kv => kv.1 != key)

/-- Go `url.Values.Get` as used by `gin.Context.Query`: the first value of the
key, `""` when the key is missing. -/
def queryGet (q : List (String × List String)) (key : String) : String :=
  match q.lookup key with
  | some (v :: _) => v
  | _ => ""

/-- The request body as an `io.ReadCloser`: the bytes still to be delivered and
the error (other than EOF) the reader reports after them, if any. -/
structure BodyReader where
  pending : Bytes
  failure : Option GoError

/-- Go `ioutil.ReadAll`: everything still pending and the reader's error; the
reader is left drained. -/
def BodyReader.ReadAll (b : BodyReader) : Bytes × Option GoError × BodyReader :=
  (b.pending, b.failure, { b with pending := [] })

/-- The fields of `url.URL` the code reads. `Query` is the parsed form of
`RawQuery`. -/
structure URL where
  Path : String
  RawQuery : String
  Query : List (String × List String)

/-- The fields of `http.Request` the code reads. -/
structure Request where
  Method : String
  URL : URL
  RequestURI : String
  Host : String
  Header : Header
  Body : BodyReader
  ContentLength : Int

/-! ## check.go: data types -/

structure DebugDetails where
  Func : String
  File : String
  Line : Int
  Stack : String
deriving DecidableEq, Repr

/-- The dynamic value held by `RequestData.Body` (an `interface{}`). -/
inductive BodyValue where
  | nil
  | object (m : GoMap)
  | array (xs : GoMapSlice)
  | string (s : Bytes)

structure RequestData where
  Id : String
  URI : String
  Host : String
  Headers : Header
  Body : BodyValue
  Method : String

structure ErrorAPIResponse where
  Error : GoError
  ErrorStr : String
  Msg : String
  StatusCode : Int
  DebugDetails : Option DebugDetails
  TimeStamp : Nat
  RecoveryLog : Bool
  Request : Option RequestData

/-- A dynamically typed Go value: what `panic` carries, what `recover`
returns and what is handed to the JSON renderer. -/
inductive GoValue where
  /-- A non-nil `*ErrorAPIResponse`. -/
  | apiResp (r : ErrorAPIResponse)
  /-- A nil `*ErrorAPIResponse`. -/
  | nilApiResp
  /-- A `*net.OpError`; `syscall` is `ne.Err.(*os.SyscallError).Error()` when
  `ne.Err` has that type. -/
  | opError (text : String) (syscall : Option String)
  /-- A `runtime.Error`, such as a nil pointer dereference. -/
  | runtimeError (text : String)
  /-- Any other value implementing `error`. -/
  | error (e : GoError)
  /-- Any other value. -/
  | other (repr : String)

/-- The message of the runtime fault raised by a method call through a nil
`*gin.Context`. -/
def nilDereference : String :=
  "runtime error: invalid memory address or nil pointer dereference"

/-- One member of the top-level JSON object of an `ErrorAPIResponse`. -/
inductive JSONMember where
  | str (s : String)
  | int (i : Int)
  | time (t : Nat)
  | debug (d : DebugDetails)
  | request (r : RequestData)

/-- The top-level JSON object encoding/json writes for an `ErrorAPIResponse`,
by the struct tags: `debug` and `request` are `omitempty` pointers; `Error`
and `RecoveryLog` carry the same tag name `_` at the same depth, so the
encoder drops both. -/
def ErrorAPIResponse.json (r : ErrorAPIResponse) : List (String × JSONMember) :=
  [("error", .str r.ErrorStr), ("msg", .str r.Msg), ("status_code", .int r.StatusCode)]
    ++ (match r.DebugDetails with
        | some d => [("debug", .debug d)]
        | none => [])
    ++ [("time", .time r.TimeStamp)]
    ++ (match r.Request with
        | some q => [("request", .request q)]
        | none => [])

/-! ## Logging -/

inductive Level where
  | info
  | error
  | fatal
deriving DecidableEq, Repr

/-- A zap field value. -/
inductive FieldVal where
  | int (i : Int)
  | str (s : String)
  | duration (ns : Int)
  | time (t : Nat)
  | err (e : GoError)
  | any (v : GoValue)

structure LogEntry where
  level : Level
  msg : String
  fields : List (String × FieldVal)
  callerSkip : Nat

/-! ## The request context and the state -/

structure ResponseWriter where
  status : Int
  header : Header
  body : Option GoValue

/-- The parts of `gin.Context` the code uses. `ClientIP` is what
`c.ClientIP()` reports. -/
structure Context where
  Request : Request
  Writer : ResponseWriter
  Errors : List GoError
  aborted : Bool
  ClientIP : String

/-- What a handler can read and change: the request context, the entries
written to the `*zap.Logger` handed to the middlewares (`log`), the entries
written through the package-level `SLogger` (`slog`), and the clock. -/
structure State where
  ctx : Context
  log : List LogEntry
  slog : List LogEntry
  now : Nat

/-- A `*gin.Context` argument: nil, or a pointer to the context of the state. -/
inductive CtxPtr where
  | null
  | live
deriving DecidableEq, Repr

/-- How a call ends: it returns a value, or a value is raised (`panic`); in
both cases the state is the one the call left behind. -/
inductive Result (α : Type) where
  | ret (v : α) (st : State)
  | panic (p : GoValue) (st : State)

abbrev Handler := State → Result Unit

/-- The functions of external packages the code calls. -/
structure Lib where
  /-- Go `json.Unmarshal(body, &result)` into a nil `map[string]interface{}`: the
  map afterwards (nil when nothing was decoded). -/
  unmarshalObject : Bytes → GoMap
  /-- Go `json.Unmarshal(body, &results)` into a nil `[]map[string]interface{}`. -/
  unmarshalArray : Bytes → GoMapSlice
  /-- Go `time.Time.Format(layout)`; the flag says whether the time was converted
  with `UTC()` first. -/
  formatTime : String → Bool → Nat → String
  /-- Go `time.Duration.String()`. -/
  durationString : Int → String
  /-- Go `httputil.DumpRequest(req, false)` as a string. -/
  dumpRequest : Request → String
  /-- Go `strings.ToLower`. -/
  toLower : String → String

/-- What `runtime.Caller(skip)` and `runtime.FuncForPC` report for one frame. -/
structure CallerInfo where
  funcName : Option String
  file : String
  line : Int
  ok : Bool

/-- What the Go runtime reports about the call stack at a call site. -/
structure GoStack where
  Caller : Nat → CallerInfo
  Stack : String

/-! ## check.go: functions -/

/-- Go `c.Query(key)`: a method call through the pointer, so a nil pointer
faults. -/
def CtxPtr.Query (c : CtxPtr) (key : String) (s : State) : Except GoValue String :=
  match c with
  | .null => .error (.runtimeError nilDereference)
  | .live => .ok (queryGet s.ctx.Request.URL.Query key)

def isDebugRequested (c : CtxPtr) (s : State) : Except GoValue Bool :=
  (c.Query "err_debug" s).map (fun v => v == "true")

def isRequestNeeded (c : CtxPtr) (s : State) : Except GoValue Bool :=
  (c.Query "err_req" s).map (fun v => v == "true")

def debugDetails (stk : GoStack) (debugDepth : Int) (stackTrace : Bool) : Option DebugDetails :=
  if debugDepth > 0 then
    let ci := stk.Caller debugDepth.toNat
    let errFunc :=
      match ci.ok, ci.funcName with
      | true, some name => name
      | _, _ => ""
    let d : DebugDetails := { Func := errFunc, File := ci.file, Line := ci.line, Stack := "" }
    some (if stackTrace then { d with Stack := stk.Stack } else d)
  else
    none

/-- The classification of the bytes read from the body. -/
def bodyValue (lib : Lib) (body : Bytes) : BodyValue :=
  match body with
  | [] => .nil
  | b :: _ =>
    if b = 123 then .object (lib.unmarshalObject body)
    else if b = 91 then .array (lib.unmarshalArray body)
    else .string body

def requestDetails (lib : Lib) (c : CtxPtr) (s : State) : Option RequestData × State :=
  match c with
  | .null => (none, s)
  | .live =>
    let req := s.ctx.Request
    let (body, er, rd) := req.Body.ReadAll
    let s1 : State := { s with ctx := { s.ctx with Request := { req with Body := rd } } }
    let s2 : State :=
      match er with
      | some e =>
        { s1 with slog := s1.slog ++
            [{ level := .error, msg := "ERROR: Failed to Read Request.Body",
               fields := [("error", .err e)], callerSkip := 0 }] }
      | none => s1
    (some { Id := req.Header.Get "X-Request-Id", URI := req.RequestURI, Host := req.Host,
            Headers := req.Header, Body := bodyValue lib body, Method := req.Method }, s2)

def handleError (lib : Lib) (stk : GoStack) (err : Option GoError) (msg : String)
    (statusCode : Int) (debugDepth : Int) (stackTrace : Bool) (c : CtxPtr) (s : State) :
    Result (Option ErrorAPIResponse) :=
  match err with
  | none => .ret none s
  | some e =>
    let debugData := debugDetails stk debugDepth stackTrace
    let (requestData, s1) := requestDetails lib c s
    let errApiResp : ErrorAPIResponse :=
      { Error := e, ErrorStr := e.text, Msg := "ERROR: " ++ msg, StatusCode := statusCode,
        DebugDetails := none, TimeStamp := s1.now, RecoveryLog := false, Request := none }
    match isDebugRequested c s1 with
    | .error p => .panic p s1
    | .ok dbg =>
      let r1 := if dbg && debugData.isSome then { errApiResp with DebugDetails := debugData }
                else errApiResp
      match isRequestNeeded c s1 with
      | .error p => .panic p s1
      | .ok need =>
        let r2 := if need && requestData.isSome then { r1 with Request := requestData } else r1
        .ret (some r2) s1

/-- The `*ErrorAPIResponse` returned by `handleError`, as the value handed to
`panic`. -/
def toValue : Option ErrorAPIResponse → GoValue
  | some r => .apiResp r
  | none => .nilApiResp

/-- Go `c.Error(err)`: the error is appended to the errors of the request. -/
def ctxError (e : GoError) (s : State) : State :=
  { s with ctx := { s.ctx with Errors := s.ctx.Errors ++ [e] } }

/-- The tail shared by the abort-check entry points that take a context: record
the error on the context, then raise the response. -/
def recordAndRaise (e : GoError) (c : CtxPtr) (r : Result (Option ErrorAPIResponse)) :
    Result Unit :=
  match r with
  | .panic p s1 => .panic p s1
  | .ret errApiResp s1 =>
    match c with
    | .null => .panic (.runtimeError nilDereference) s1
    | .live => .panic (toValue errApiResp) (ctxError e s1)

def CheckAndAbortAPIError (lib : Lib) (stk : GoStack) (err : Option GoError) (c : CtxPtr)
    (statusCode : Int) : Handler := fun s =>
  match err with
  | none => .ret () s
  | some e =>
    recordAndRaise e c (handleError lib stk err "There was an error." statusCode 3 true c s)

def CheckAndAbortAPIErrorMsg (lib : Lib) (stk : GoStack) (err : Option GoError) (msg : String)
    (c : CtxPtr) (statusCode : Int) : Handler := fun s =>
  match err with
  | none => .ret () s
  | some e => recordAndRaise e c (handleError lib stk err msg statusCode 3 true c s)

/-- The tail of the entry points without a context: raise the response. -/
def raiseOnly (r : Result (Option ErrorAPIResponse)) : Result Unit :=
  match r with
  | .panic p s1 => .panic p s1
  | .ret errApiResp s1 => .panic (toValue errApiResp) s1

def CheckAndAbortErrorMsg (lib : Lib) (stk : GoStack) (err : Option GoError) (msg : String) :
    Handler := fun s =>
  match err with
  | none => .ret () s
  | some _ => raiseOnly (handleError lib stk err msg 500 3 true .null s)

def CheckAndAbortError (lib : Lib) (stk : GoStack) (err : Option GoError) : Handler := fun s =>
  match err with
  | none => .ret () s
  | some _ => raiseOnly (handleError lib stk err "There was an error." 500 3 true .null s)

/-! ## zaplogger.go -/

/-- Whether `sub` occurs in `s`, on character lists. -/
def containsChars (s sub : List Char) : Bool :=
  match s with
  | [] => sub.isEmpty
  | c :: cs => sub.isPrefixOf (c :: cs) || containsChars cs sub

/-- Go `strings.Contains`. -/
def contains (s sub : String) : Bool := containsChars s.toList sub.toList

/-- Config is config setting for Ginzap. -/
structure Config where
  TimeFormat : String
  UTC : Bool
  SkipPaths : List String

/-- Go `c.Abort()`. -/
def ctxAbort (s : State) : State :=
  { s with ctx := { s.ctx with aborted := true } }

/-- Go `c.AbortWithStatusJSON(code, obj)`: the chain is aborted and the response
gets the status and `obj` rendered as its JSON body. -/
def AbortWithStatusJSON (code : Int) (obj : GoValue) (s : State) : State :=
  { s with ctx := { s.ctx with aborted := true,
                               Writer := { s.ctx.Writer with status := code, body := some obj } } }

/-- Go `logger.Error(msg, fields...)` and `logger.Info(msg, fields...)` on the
logger handed to the middlewares. -/
def logWrite (level : Level) (skip : Nat) (msg : String) (fields : List (String × FieldVal))
    (s : State) : State :=
  { s with log := s.log ++ [{ level := level, msg := msg, fields := fields, callerSkip := skip }] }

/-- The `brokenPipe` flag of `RecoveryWithZap`. -/
def isBrokenPipe (lib : Lib) : GoValue → Bool
  | .opError _ (some se) =>
    contains (lib.toLower se) "broken pipe"
      || contains (lib.toLower se) "connection reset by peer"
  | _ => false

/-- The `error` a recovered value is asserted to be in the broken-pipe branch
(`err.(error)`); only a `*net.OpError` gets there. -/
def asError : GoValue → GoError
  | .opError text _ => { text := text }
  | .runtimeError text => { text := text }
  | .error e => e
  | .apiResp r => r.Error
  | .nilApiResp => { text := "" }
  | .other repr => { text := repr }

/-- The fields of the "[Recovery from panic]" entry. -/
def recoveryFields (lib : Lib) (stk : GoStack) (stack : Bool) (err : GoValue) (s : State) :
    List (String × FieldVal) :=
  let httpRequest := lib.dumpRequest s.ctx.Request
  if stack then
    [("time", .time s.now), ("error", .any err), ("request", .str httpRequest),
     ("stack", .str stk.Stack)]
  else
    [("time", .time s.now), ("error", .any err), ("request", .str httpRequest)]

/-- The deferred function of `RecoveryWithZap`, run on a recovered value. -/
def recovered (lib : Lib) (stk : GoStack) (stack : Bool) (err : GoValue) (s : State) :
    Result Unit :=
  let httpRequest := lib.dumpRequest s.ctx.Request
  if isBrokenPipe lib err then
    let s1 := logWrite .error 0 s.ctx.Request.URL.Path
      [("error", .any err), ("request", .str httpRequest)] s
    .ret () (ctxAbort (ctxError (asError err) s1))
  else
    match err with
    | .apiResp errResp =>
      let s1 := if errResp.RecoveryLog then
          logWrite .error 2 "[Recovery from panic]" (recoveryFields lib stk stack err s) s
        else s
      .ret () (AbortWithStatusJSON errResp.StatusCode err s1)
    | .nilApiResp => .panic (.runtimeError nilDereference) s
    | _ =>
      let s1 := logWrite .error 2 "[Recovery from panic]" (recoveryFields lib stk stack err s) s
      .ret () (AbortWithStatusJSON 500 err s1)

/-- RecoveryWithZap returns a middleware that recovers from any panics and logs
requests. `stack` means whether output the stack info. `next` is the rest of
the chain (`c.Next()`). -/
def RecoveryWithZap (lib : Lib) (stk : GoStack) (stack : Bool) (next : Handler) : Handler :=
  fun s =>
    match next s with
    | .ret () s1 => .ret () s1
    | .panic err s1 => recovered lib stk stack err s1

/-- The `error-i` fields: one for each string of `c.Errors.Errors()`, numbered
from `i` on. -/
def errorFields : Nat → List GoError → List (String × FieldVal)
  | _, [] => []
  | i, e :: es => ("error-" ++ toString i, .str e.text) :: errorFields (i + 1) es

/-- Go `end.Sub(start)` on clock readings in nanoseconds: the difference, kept
within the range of an `int64`. -/
def durationSub (finish start : Nat) : Int :=
  max (-9223372036854775808) (min 9223372036854775807 ((finish : Int) - (start : Int)))

/-- The fields of the access-log entry. -/
def accessFields (lib : Lib) (conf : Config) (path query : String) (start : Nat) (s : State) :
    List (String × FieldVal) :=
  let c := s.ctx
  let latency : Int := durationSub s.now start
  [("status", .int c.Writer.status),
   ("method", .str c.Request.Method),
   ("path", .str path),
   ("query", .str query),
   ("ip", .str c.ClientIP),
   ("user-agent", .str (c.Request.Header.Get "User-Agent")),
   ("latency", .duration latency),
   ("latency_milliseconds", .int (latency.tdiv 1000000)),
   ("latency_microseconds", .int (latency.tdiv 1000)),
   ("latency_string", .str (lib.durationString latency)),
   ("request_uri", .str c.Request.RequestURI),
   ("content_length", .int c.Request.ContentLength),
   ("host", .str c.Request.Host),
   ("request_id", .str (c.Request.Header.Get "X-Request-Id"))]
  ++ (if conf.TimeFormat != "" then
        [("time", .str (lib.formatTime conf.TimeFormat conf.UTC s.now))]
      else [])
  ++ errorFields 0 c.Errors

/-- GinzapWithConfig returns a middleware using configs. `next` is the rest of
the chain (`c.Next()`); when it raises, the code after it does not run. -/
def GinzapWithConfig (lib : Lib) (conf : Config) (next : Handler) : Handler := fun s =>
  let start := s.now
  let path := s.ctx.Request.URL.Path
  let query := s.ctx.Request.URL.RawQuery
  match next s with
  | .panic p s1 => .panic p s1
  | .ret () s1 =>
    if path ∈ conf.SkipPaths then .ret () s1
    else
      let fields := accessFields lib conf path query start s1
      if s1.ctx.Errors.length > 0 then .ret () (logWrite .error 0 path fields s1)
      else .ret () (logWrite .info 0 path fields s1)

/-- Ginzap returns a middleware that logs requests. -/
def Ginzap (lib : Lib) (timeFormat : String) (utc : Bool) (next : Handler) : Handler :=
  GinzapWithConfig lib { TimeFormat := timeFormat, UTC := utc, SkipPaths := [] } next

/-- A `uuid.UUID`: sixteen bytes. -/
structure UUID where
  byte : Fin 16 → UInt8

/-- The two lower-case hexadecimal digits of a byte. -/
def hexByte (b : UInt8) : List Char :=
  [Nat.digitChar (b.toNat / 16), Nat.digitChar (b.toNat % 16)]

/-- Go `UUID.String`: the canonical form, 8-4-4-4-12 hexadecimal digits. -/
def UUID.String (u : UUID) : String :=
  let hex (is : List (Fin 16)) : List Char := is.flatMap (fun i => hexByte (u.byte i))
  String.mk (hex [0, 1, 2, 3] ++ [Char.ofNat 45] ++ hex [4, 5] ++ [Char.ofNat 45] ++ hex [6, 7]
    ++ [Char.ofNat 45] ++ hex [8, 9] ++ [Char.ofNat 45] ++ hex [10, 11, 12, 13, 14, 15])

/-- The state `RequestIdMiddleware` hands to the rest of the chain. -/
def setRequestId (reqId : String) (s : State) : State :=
  let c := s.ctx
  { s with ctx := { c with
      Request := { c.Request with Header := c.Request.Header.Set "X-Request-Id" reqId },
      Writer := { c.Writer with header := c.Writer.header.Set "X-Request-Id" reqId } } }

/-- RequestIdMiddleware; `u` is the value `uuid.NewV4()` draws, `next` the rest
of the chain (`c.Next()`). -/
def RequestIdMiddleware (u : UUID) (next : Handler) : Handler := fun s =>
  let reqId := s.ctx.Request.Header.Get "X-Request-Id"
  let reqId := if reqId == "" then u.String else reqId
  next (setRequestId reqId s)

/-! ## Properties stated about the code -/

/-- The handler raises an `*ErrorAPIResponse` carrying the status code and the
message of the error, and `RecoveryWithZap` around the handler returns normally
with that status on the response and that payload as its JSON body, whose
`error` member is the message. -/
def RaisedAndAnswered (lib : Lib) (rstk : GoStack) (stack : Bool) (h : Handler) (s : State)
    (code : Int) (e : GoError) : Prop :=
  ∃ r s1 s2, h s = .panic (.apiResp r) s1 ∧ r.StatusCode = code ∧ r.ErrorStr = e.text
    ∧ RecoveryWithZap lib rstk stack h s = .ret () s2
    ∧ s2.ctx.Writer.status = code ∧ s2.ctx.Writer.body = some (.apiResp r)
    ∧ r.json.lookup "error" = some (.str e.text)

/-- The handler raises an `*ErrorAPIResponse` that has its debug details, and
a `debug` member in its JSON, exactly when `err_debug` is `"true"`, and its
request data, and a `request` member, exactly when `err_req` is `"true"`;
`RecoveryWithZap` around the handler writes that payload as the JSON body. -/
def DisclosesOnRequest (lib : Lib) (rstk : GoStack) (stack : Bool) (h : Handler) (s : State) :
    Prop :=
  ∃ r s1 s2, h s = .panic (.apiResp r) s1
    ∧ (r.DebugDetails.isSome ↔ queryGet s.ctx.Request.URL.Query "err_debug" = "true")
    ∧ ((r.json.lookup "debug").isSome ↔ queryGet s.ctx.Request.URL.Query "err_debug" = "true")
    ∧ (r.Request.isSome ↔ queryGet s.ctx.Request.URL.Query "err_req" = "true")
    ∧ ((r.json.lookup "request").isSome ↔ queryGet s.ctx.Request.URL.Query "err_req" = "true")
    ∧ RecoveryWithZap lib rstk stack h s = .ret () s2
    ∧ s2.ctx.Writer.body = some (.apiResp r)

/-- Whether a recovered value has the type `*ErrorAPIResponse`. -/
def isApiResp : GoValue → Bool
  | .apiResp _ => true
  | .nilApiResp => true
  | _ => false

/-- The text of the `stack` field of a log entry, when it has one. -/
def LogEntry.stackText (en : LogEntry) : Option String :=
  match en.fields.lookup "stack" with
  | some (.str t) => some t
  | _ => none

/-- Whether a field key has the form `error-...`. -/
def isErrorKey (k : String) : Bool := "error-".toList.isPrefixOf k.toList

/-- The four dynamic types a snapshot body can have. -/
inductive BodyKind where
  | absent
  | object
  | array
  | string
deriving DecidableEq, Repr

def BodyValue.kind : BodyValue → BodyKind
  | .nil => .absent
  | .object _ => .object
  | .array _ => .array
  | .string _ => .string

/-- JSON whitespace: space, tab, line feed, carriage return. -/
def isSpace (b : UInt8) : Bool := b = 32 || b = 9 || b = 10 || b = 13

/-- The classification in the words of the specification: by the first
non-whitespace byte of the body, an opening brace for an object, an opening
bracket for an array, anything else for a string; an empty body has none. -/
def specBodyKind (body : Bytes) : BodyKind :=
  match body with
  | [] => .absent
  | _ =>
    match body.dropWhile isSpace with
    | b :: _ => if b = 123 then .object else if b = 91 then .array else .string
    | [] => .string

/-! ## Concrete inputs -/

/-- Library functions for evaluating the definitions on concrete inputs: the
decoders know the empty object and the empty array and decode nothing else. -/
def sampleLib : Lib where
  unmarshalObject := fun b => if b = [123, 125] then some [] else none
  unmarshalArray := fun b => if b = [91, 93] then some [] else none
  formatTime := fun _ _ t => toString t
  durationString := fun d => toString d ++ "ns"
  dumpRequest := fun r => r.Method ++ " " ++ r.RequestURI
  toLower := fun s => s.map Char.toLower

def sampleStack : GoStack where
  Caller := fun _ =>
    { funcName := some "routes.tryError", file := "routes/routes.go", line := 40, ok := true }
  Stack := "goroutine 1 [running]"

/-- A request `GET /error` with the given query values and body. -/
def sampleState (query : List (String × List String)) (body : Bytes) : State where
  ctx :=
    { Request :=
        { Method := "GET",
          URL := { Path := "/error", RawQuery := "", Query := query },
          RequestURI := "/error", Host := "localhost", Header := [],
          Body := { pending := body, failure := none }, ContentLength := body.length },
      Writer := { status := 200, header := [], body := none },
      Errors := [], aborted := false, ClientIP := "127.0.0.1" }
  log := []
  slog := []
  now := 1000

/-- A version 4 UUID whose random bits are all zero. -/
def sampleUUID : UUID := { byte := fun i => if i = 6 then 64 else if i = 8 then 128 else 0 }

/-- The sample request with the header `X-Request-Id: abc123`. -/
def sampleWithId : State :=
  setRequestId "abc123" (sampleState [] [])

/-! ## Theorems -/

theorem requestDetails_live_fst (lib : Lib) (s : State) :
    (requestDetails lib .live s).1 =
      some { Id := s.ctx.Request.Header.Get "X-Request-Id", URI := s.ctx.Request.RequestURI,
             Host := s.ctx.Request.Host, Headers := s.ctx.Request.Header,
             Body := bodyValue lib s.ctx.Request.Body.pending, Method := s.ctx.Request.Method } := by
  simp [requestDetails, BodyReader.ReadAll]

theorem requestDetails_live_url (lib : Lib) (s : State) :
    (requestDetails lib .live s).2.ctx.Request.URL = s.ctx.Request.URL := by
  simp only [requestDetails, BodyReader.ReadAll]
  cases s.ctx.Request.Body.failure <;> rfl

theorem requestDetails_live_pending (lib : Lib) (s : State) :
    (requestDetails lib .live s).2.ctx.Request.Body.pending = [] := by
  simp only [requestDetails, BodyReader.ReadAll]
  cases s.ctx.Request.Body.failure <;> rfl

theorem handleError_live (lib : Lib) (stk : GoStack) (e : GoError) (msg : String) (code : Int)
    (s : State) :
    ∃ r, handleError lib stk (some e) msg code 3 true .live s
        = .ret (some r) (requestDetails lib .live s).2
      ∧ r.Error = e ∧ r.ErrorStr = e.text ∧ r.Msg = "ERROR: " ++ msg ∧ r.StatusCode = code
      ∧ r.RecoveryLog = false
      ∧ (r.DebugDetails.isSome ↔ queryGet s.ctx.Request.URL.Query "err_debug" = "true")
      ∧ (r.Request.isSome ↔ queryGet s.ctx.Request.URL.Query "err_req" = "true") := by
  have h1 := requestDetails_live_fst lib s
  have h2 := requestDetails_live_url lib s
  simp only [handleError]
  generalize requestDetails lib .live s = p at h1 h2 ⊢
  obtain ⟨rd, s1⟩ := p
  simp only at h1 h2
  subst h1
  by_cases hd : queryGet s.ctx.Request.URL.Query "err_debug" = "true" <;>
  by_cases hr : queryGet s.ctx.Request.URL.Query "err_req" = "true" <;>
  simp [isDebugRequested, isRequestNeeded, CtxPtr.Query, Except.map, h2, debugDetails, hd, hr]

theorem abortMsg_live (lib : Lib) (stk : GoStack) (e : GoError) (msg : String) (code : Int)
    (s : State) :
    ∃ r, CheckAndAbortAPIErrorMsg lib stk (some e) msg .live code s
        = .panic (.apiResp r) (ctxError e (requestDetails lib .live s).2)
      ∧ r.Error = e ∧ r.ErrorStr = e.text ∧ r.Msg = "ERROR: " ++ msg ∧ r.StatusCode = code
      ∧ r.RecoveryLog = false
      ∧ (r.DebugDetails.isSome ↔ queryGet s.ctx.Request.URL.Query "err_debug" = "true")
      ∧ (r.Request.isSome ↔ queryGet s.ctx.Request.URL.Query "err_req" = "true") := by
  obtain ⟨r, hr, hprops⟩ := handleError_live lib stk e msg code s
  exact ⟨r, by simp [CheckAndAbortAPIErrorMsg, hr, recordAndRaise, toValue], hprops⟩

theorem json_lookup_error (r : ErrorAPIResponse) :
    r.json.lookup "error" = some (.str r.ErrorStr) := by
  simp [ErrorAPIResponse.json, List.lookup]

theorem json_lookup_debug (r : ErrorAPIResponse) :
    (r.json.lookup "debug").isSome = r.DebugDetails.isSome := by
  cases hd : r.DebugDetails <;> cases hq : r.Request <;>
    simp [ErrorAPIResponse.json, List.lookup, hd, hq]

theorem json_lookup_request (r : ErrorAPIResponse) :
    (r.json.lookup "request").isSome = r.Request.isSome := by
  cases hd : r.DebugDetails <;> cases hq : r.Request <;>
    simp [ErrorAPIResponse.json, List.lookup, hd, hq]

theorem recovered_apiResp (lib : Lib) (rstk : GoStack) (stack : Bool) (h : Handler)
    (s s1 : State) (r : ErrorAPIResponse) (hr : h s = .panic (.apiResp r) s1)
    (hlog : r.RecoveryLog = false) :
    RecoveryWithZap lib rstk stack h s
      = .ret () (AbortWithStatusJSON r.StatusCode (.apiResp r) s1) := by
  simp [RecoveryWithZap, hr, recovered, isBrokenPipe, hlog]

theorem raisedAndAnswered_msg (lib : Lib) (stk rstk : GoStack) (stack : Bool) (e : GoError)
    (msg : String) (code : Int) (s : State) :
    RaisedAndAnswered lib rstk stack (CheckAndAbortAPIErrorMsg lib stk (some e) msg .live code)
      s code e := by
  obtain ⟨r, hr, -, hstr, -, hcode, hlog, -, -⟩ := abortMsg_live lib stk e msg code s
  refine ⟨r, _, _, hr, hcode, hstr, recovered_apiResp lib rstk stack _ s _ r hr hlog,
    ?_, ?_, ?_⟩
  · simp [AbortWithStatusJSON, hcode]
  · simp [AbortWithStatusJSON]
  · rw [json_lookup_error, hstr]

theorem disclosesOnRequest_msg (lib : Lib) (stk rstk : GoStack) (stack : Bool) (e : GoError)
    (msg : String) (code : Int) (s : State) :
    DisclosesOnRequest lib rstk stack
      (CheckAndAbortAPIErrorMsg lib stk (some e) msg .live code) s := by
  obtain ⟨r, hr, -, -, -, -, hlog, hd, hq⟩ := abortMsg_live lib stk e msg code s
  refine ⟨r, _, _, hr, hd, ?_, hq, ?_, recovered_apiResp lib rstk stack _ s _ r hr hlog, ?_⟩
  · rw [json_lookup_debug]; exact hd
  · rw [json_lookup_request]; exact hq
  · simp [AbortWithStatusJSON]

/-- C1: for every non-nil error, context and status code, CheckAndAbortAPIError
and CheckAndAbortAPIErrorMsg raise an ErrorAPIResponse with that StatusCode and
ErrorStr = err.Error(), and RecoveryWithZap answers with that status and that
payload as the JSON body, whose `error` member is err.Error(). -/
theorem abort_api_error_answered (lib : Lib) (stk rstk : GoStack) (stack : Bool) (e : GoError)
    (msg : String) (code : Int) (s : State) :
    RaisedAndAnswered lib rstk stack (CheckAndAbortAPIError lib stk (some e) .live code) s code e
    ∧ RaisedAndAnswered lib rstk stack
        (CheckAndAbortAPIErrorMsg lib stk (some e) msg .live code) s code e :=
  ⟨raisedAndAnswered_msg lib stk rstk stack e "There was an error." code s,
   raisedAndAnswered_msg lib stk rstk stack e msg code s⟩

/-- C2: for every non-nil error reported through CheckAndAbortAPIError or
CheckAndAbortAPIErrorMsg, the ErrorAPIResponse and its JSON carry `debug` if
and only if the query parameter err_debug is "true", and `request` if and only
if the query parameter err_req is "true"; that payload is the JSON body
RecoveryWithZap writes. -/
theorem disclosure_iff_flags (lib : Lib) (stk rstk : GoStack) (stack : Bool) (e : GoError)
    (msg : String) (code : Int) (s : State) :
    DisclosesOnRequest lib rstk stack (CheckAndAbortAPIError lib stk (some e) .live code) s
    ∧ DisclosesOnRequest lib rstk stack
        (CheckAndAbortAPIErrorMsg lib stk (some e) msg .live code) s :=
  ⟨disclosesOnRequest_msg lib stk rstk stack e "There was an error." code s,
   disclosesOnRequest_msg lib stk rstk stack e msg code s⟩

/-- C3: each of the four abort-check entry points, called with a nil error,
returns normally and leaves the state as it was: nothing is raised, nothing is
recorded on the context, nothing is written or logged. -/
theorem abort_check_nil_error_noop (lib : Lib) (stk : GoStack) (c : CtxPtr) (msg : String)
    (code : Int) (s : State) :
    CheckAndAbortAPIError lib stk none c code s = .ret () s
    ∧ CheckAndAbortAPIErrorMsg lib stk none msg c code s = .ret () s
    ∧ CheckAndAbortError lib stk none s = .ret () s
    ∧ CheckAndAbortErrorMsg lib stk none msg s = .ret () s :=
  ⟨rfl, rfl, rfl, rfl⟩

/-- C8 (the code at the failing input): with a non-nil error, CheckAndAbortError
and CheckAndAbortErrorMsg raise a nil-pointer runtime fault, from the query
lookup through the nil context in handleError, and not an ErrorAPIResponse. -/
theorem abort_error_nil_context_fault (lib : Lib) (stk : GoStack) (e : GoError) (msg : String)
    (s : State) :
    CheckAndAbortError lib stk (some e) s = .panic (.runtimeError nilDereference) s
    ∧ CheckAndAbortErrorMsg lib stk (some e) msg s = .panic (.runtimeError nilDereference) s := by
  constructor <;>
    simp [CheckAndAbortError, CheckAndAbortErrorMsg, handleError, requestDetails,
      isDebugRequested, CtxPtr.Query, Except.map, raiseOnly]

/-- C9 (as stated, refuted): on a request without err_req and with the body
`hi`, reporting an error through CheckAndAbortAPIError leaves the body
drained: it was read although no snapshot was requested. -/
theorem body_read_without_err_req :
    queryGet (sampleState [] [104, 105]).ctx.Request.URL.Query "err_req" ≠ "true"
    ∧ (sampleState [] [104, 105]).ctx.Request.Body.pending = [104, 105]
    ∧ (requestDetails sampleLib .live (sampleState [] [104, 105])).1.isSome = true
    ∧ ∃ r s1, CheckAndAbortAPIError sampleLib sampleStack (some { text := "boom" }) .live 400
          (sampleState [] [104, 105]) = .panic (.apiResp r) s1
        ∧ s1.ctx.Request.Body.pending = [] := by
  refine ⟨by decide, rfl, rfl, ?_⟩
  obtain ⟨r, hr, -⟩ := abortMsg_live sampleLib sampleStack { text := "boom" }
    "There was an error." 400 (sampleState [] [104, 105])
  exact ⟨r, _, hr, rfl⟩

/-- C9 (amended): when err_req is not "true", the ErrorAPIResponse raised by
CheckAndAbortAPIError and CheckAndAbortAPIErrorMsg has no request snapshot
attached and no `request` member in its JSON; the request body has been read
all the same and is left drained. -/
theorem no_snapshot_attached_without_err_req (lib : Lib) (stk : GoStack) (e : GoError)
    (msg : String) (code : Int) (s : State)
    (h : queryGet s.ctx.Request.URL.Query "err_req" ≠ "true") :
    (∃ r s1, CheckAndAbortAPIError lib stk (some e) .live code s = .panic (.apiResp r) s1
        ∧ r.Request.isSome = false ∧ (r.json.lookup "request").isSome = false
        ∧ s1.ctx.Request.Body.pending = [])
    ∧ (∃ r s1, CheckAndAbortAPIErrorMsg lib stk (some e) msg .live code s
          = .panic (.apiResp r) s1
        ∧ r.Request.isSome = false ∧ (r.json.lookup "request").isSome = false
        ∧ s1.ctx.Request.Body.pending = []) := by
  have key : ∀ m, ∃ r s1, CheckAndAbortAPIErrorMsg lib stk (some e) m .live code s
        = .panic (.apiResp r) s1
      ∧ r.Request.isSome = false ∧ (r.json.lookup "request").isSome = false
      ∧ s1.ctx.Request.Body.pending = [] := by
    intro m
    obtain ⟨r, hr, -, -, -, -, -, -, hq⟩ := abortMsg_live lib stk e m code s
    have hn : r.Request.isSome = false := by
      cases hs : r.Request.isSome
      · rfl
      · exact absurd (hq.mp hs) h
    refine ⟨r, _, hr, hn, ?_, ?_⟩
    · rw [json_lookup_request, hn]
    · exact requestDetails_live_pending lib s
  exact ⟨key "There was an error.", key msg⟩

theorem no_snapshot_attached_without_err_req_witness :
    (∃ r s1, CheckAndAbortAPIError sampleLib sampleStack (some { text := "boom" }) .live 400
          (sampleState [("err_debug", ["true"])] [104, 105]) = .panic (.apiResp r) s1
        ∧ r.Request.isSome = false ∧ (r.json.lookup "request").isSome = false
        ∧ s1.ctx.Request.Body.pending = [])
    ∧ (∃ r s1, CheckAndAbortAPIErrorMsg sampleLib sampleStack (some { text := "boom" }) "bad"
          .live 400 (sampleState [("err_debug", ["true"])] [104, 105]) = .panic (.apiResp r) s1
        ∧ r.Request.isSome = false ∧ (r.json.lookup "request").isSome = false
        ∧ s1.ctx.Request.Body.pending = []) :=
  no_snapshot_attached_without_err_req sampleLib sampleStack { text := "boom" } "bad" 400
    (sampleState [("err_debug", ["true"])] [104, 105]) (by decide)

/-- C4 (as stated, refuted): with the stack flag off, the entry logged for a
raised value that is neither an ErrorAPIResponse nor a broken connection has
the fields time, error and request only: no stack text. -/
theorem recovery_stack_flag_off_logs_no_stack :
    isApiResp (.other "boom") = false ∧ isBrokenPipe sampleLib (.other "boom") = false
    ∧ ∃ s2 en, RecoveryWithZap sampleLib sampleStack false (fun s => .panic (.other "boom") s)
          (sampleState [] []) = .ret () s2
        ∧ s2.log = [en] ∧ en.stackText = none
        ∧ en.fields.map Prod.fst = ["time", "error", "request"] :=
  ⟨rfl, rfl, _, _, rfl, rfl, rfl, rfl⟩

/-- C4 (amended): for every raised value that is neither an ErrorAPIResponse nor
a broken-connection fault, and for every setting of the stack flag,
RecoveryWithZap returns normally, responds with status 500 and the raised value
as the JSON body, and appends one error-severity log entry, which carries the
stack text when the stack flag is on and no stack field when it is off. -/
theorem recovery_of_unclassified_fault (lib : Lib) (stk : GoStack) (stack : Bool)
    (next : Handler) (s s1 : State) (v : GoValue) (hn : next s = .panic v s1)
    (ha : isApiResp v = false) (hb : isBrokenPipe lib v = false) :
    ∃ s2 en, RecoveryWithZap lib stk stack next s = .ret () s2
      ∧ s2.ctx.Writer.status = 500 ∧ s2.ctx.Writer.body = some v
      ∧ s2.log = s1.log ++ [en] ∧ en.level = .error
      ∧ en.stackText = (if stack then some stk.Stack else none) := by
  cases v with
  | apiResp r => simp [isApiResp] at ha
  | nilApiResp => simp [isApiResp] at ha
  | opError t sc =>
    refine ⟨_, _, by simp only [RecoveryWithZap, hn, recovered, hb]; rfl, rfl, rfl, rfl, rfl, ?_⟩
    cases stack <;> rfl
  | runtimeError t =>
    refine ⟨_, _, by simp only [RecoveryWithZap, hn, recovered, hb]; rfl, rfl, rfl, rfl, rfl, ?_⟩
    cases stack <;> rfl
  | error e =>
    refine ⟨_, _, by simp only [RecoveryWithZap, hn, recovered, hb]; rfl, rfl, rfl, rfl, rfl, ?_⟩
    cases stack <;> rfl
  | other t =>
    refine ⟨_, _, by simp only [RecoveryWithZap, hn, recovered, hb]; rfl, rfl, rfl, rfl, rfl, ?_⟩
    cases stack <;> rfl

theorem recovery_of_unclassified_fault_witness :
    ∃ s2 en, RecoveryWithZap sampleLib sampleStack true
          (fun s => .panic (.runtimeError "index out of range") s) (sampleState [] [])
          = .ret () s2
      ∧ s2.ctx.Writer.status = 500
      ∧ s2.ctx.Writer.body = some (.runtimeError "index out of range")
      ∧ s2.log = (sampleState [] []).log ++ [en] ∧ en.level = .error
      ∧ en.stackText = (if true then some sampleStack.Stack else none) :=
  recovery_of_unclassified_fault sampleLib sampleStack true
    (fun s => .panic (.runtimeError "index out of range") s) (sampleState [] [])
    (sampleState [] []) (.runtimeError "index out of range") rfl rfl rfl

theorem Header.get_set (h : Header) (k v : String) : (h.Set k v).Get k = v := by
  simp [Header.Get, Header.Set, List.lookup]

theorem Header.set_set (h : Header) (k v : String) : (h.Set k v).Set k v = h.Set k v := by
  simp [Header.Set, List.filter_cons, List.filter_filter]

theorem UUID.string_ne_empty (u : UUID) : u.String ≠ "" := by
  intro h
  have := congrArg String.length h
  simp [UUID.String, String.length] at this

theorem setRequestId_twice (v : String) (s : State) :
    setRequestId v (setRequestId v s) = setRequestId v s := by
  simp [setRequestId, Header.set_set]

theorem setRequestId_get (v : String) (s : State) :
    (setRequestId v s).ctx.Request.Header.Get "X-Request-Id" = v
    ∧ (setRequestId v s).ctx.Writer.header.Get "X-Request-Id" = v :=
  ⟨Header.get_set _ _ _, Header.get_set _ _ _⟩

/-- C5: RequestIdMiddleware hands the rest of the chain a state in which, when
the inbound X-Request-Id is non-empty, the request header and the response
header both hold that value, and, when it is empty, both hold the string of the
generated UUID, which is not empty; running the middleware a second time
changes nothing. -/
theorem request_id_assigned (u u2 : UUID) (s : State) :
    ∃ s1, (∀ next, RequestIdMiddleware u next s = next s1)
      ∧ (s.ctx.Request.Header.Get "X-Request-Id" ≠ "" →
          s1.ctx.Request.Header.Get "X-Request-Id" = s.ctx.Request.Header.Get "X-Request-Id"
          ∧ s1.ctx.Writer.header.Get "X-Request-Id" = s.ctx.Request.Header.Get "X-Request-Id")
      ∧ (s.ctx.Request.Header.Get "X-Request-Id" = "" →
          u.String ≠ ""
          ∧ s1.ctx.Request.Header.Get "X-Request-Id" = u.String
          ∧ s1.ctx.Writer.header.Get "X-Request-Id" = u.String)
      ∧ (∀ next, RequestIdMiddleware u (RequestIdMiddleware u2 next) s
          = RequestIdMiddleware u next s) := by
  by_cases h : s.ctx.Request.Header.Get "X-Request-Id" = ""
  · refine ⟨setRequestId u.String s, ?_, fun hne => absurd h hne, fun _ =>
      ⟨u.string_ne_empty, setRequestId_get _ _⟩, ?_⟩
    · intro next; simp [RequestIdMiddleware, h]
    · intro next
      have hne : ¬ u.String = "" := u.string_ne_empty
      simp [RequestIdMiddleware, h, (setRequestId_get u.String s).1, hne, setRequestId_twice]
  · refine ⟨setRequestId (s.ctx.Request.Header.Get "X-Request-Id") s, ?_, fun _ =>
      setRequestId_get _ _, fun he => absurd he h, ?_⟩
    · intro next; simp [RequestIdMiddleware, h]
    · intro next
      simp [RequestIdMiddleware, h, (setRequestId_get _ s).1, setRequestId_twice]

theorem isErrorKey_error (x : String) : isErrorKey ("error-" ++ x) = true := by
  simp [isErrorKey, List.isPrefixOf]

theorem errorFields_eq_enumFrom (i : Nat) (es : List GoError) :
    errorFields i es
      = (es.enumFrom i).map (fun p => ("error-" ++ toString p.1, FieldVal.str p.2.text)) := by
  induction es generalizing i with
  | nil => rfl
  | cons e es ih => simp [errorFields, List.enumFrom, ih]

theorem filter_errorFields (i : Nat) (es : List GoError) :
    (errorFields i es).filter (fun kv => isErrorKey kv.1) = errorFields i es := by
  induction es generalizing i with
  | nil => rfl
  | cons e es ih => simp [errorFields, List.filter_cons, isErrorKey_error, ih]

theorem filter_accessFields (lib : Lib) (conf : Config) (path query : String) (start : Nat)
    (s : State) :
    (accessFields lib conf path query start s).filter (fun kv => isErrorKey kv.1)
      = errorFields 0 s.ctx.Errors := by
  simp only [accessFields, List.filter_append, filter_errorFields]
  by_cases ht : conf.TimeFormat = "" <;>
    simp +decide [ht, List.filter_cons, isErrorKey]

/-- C6: when the rest of the chain has returned, GinzapWithConfig emits nothing
if the path captured before it ran is in SkipPaths; otherwise it appends exactly
one entry, at error severity if and only if some error was recorded on the
request and at info severity otherwise, whose `error-...` fields are, in order,
one `error-i` per recorded error string, i its index. -/
theorem access_log_entry (lib : Lib) (conf : Config) (next : Handler) (s s1 : State)
    (hn : next s = .ret () s1) :
    (s.ctx.Request.URL.Path ∈ conf.SkipPaths → GinzapWithConfig lib conf next s = .ret () s1)
    ∧ (s.ctx.Request.URL.Path ∉ conf.SkipPaths →
        ∃ en, GinzapWithConfig lib conf next s = .ret () { s1 with log := s1.log ++ [en] }
          ∧ (en.level = .error ↔ s1.ctx.Errors ≠ [])
          ∧ (en.level = .info ↔ s1.ctx.Errors = [])
          ∧ en.fields.filter (fun kv => isErrorKey kv.1)
              = s1.ctx.Errors.enum.map
                  (fun p => ("error-" ++ toString p.1, FieldVal.str p.2.text))) := by
  constructor
  · intro hp
    simp [GinzapWithConfig, hn, hp]
  · intro hp
    have hf := filter_accessFields lib conf s.ctx.Request.URL.Path s.ctx.Request.URL.RawQuery
      s.now s1
    rw [errorFields_eq_enumFrom] at hf
    cases he : s1.ctx.Errors with
    | nil =>
      refine ⟨{ level := .info, msg := s.ctx.Request.URL.Path, callerSkip := 0,
                fields := accessFields lib conf s.ctx.Request.URL.Path
                  s.ctx.Request.URL.RawQuery s.now s1 }, ?_, ?_, ?_, ?_⟩
      · simp [GinzapWithConfig, hn, hp, he, logWrite]
      · simp
      · simp
      · simpa [he, List.enum] using hf
    | cons e es =>
      refine ⟨{ level := .error, msg := s.ctx.Request.URL.Path, callerSkip := 0,
                fields := accessFields lib conf s.ctx.Request.URL.Path
                  s.ctx.Request.URL.RawQuery s.now s1 }, ?_, ?_, ?_, ?_⟩
      · simp [GinzapWithConfig, hn, hp, he, logWrite]
      · simp
      · simp
      · simpa [he, List.enum] using hf

theorem access_log_entry_witness :
    ((sampleState [] []).ctx.Request.URL.Path ∈ ["/health"] →
        GinzapWithConfig sampleLib { TimeFormat := "2006", UTC := true, SkipPaths := ["/health"] }
          (fun s => .ret () (ctxError { text := "boom" } s)) (sampleState [] [])
        = .ret () (ctxError { text := "boom" } (sampleState [] [])))
    ∧ ((sampleState [] []).ctx.Request.URL.Path ∉ ["/health"] →
        ∃ en, GinzapWithConfig sampleLib
              { TimeFormat := "2006", UTC := true, SkipPaths := ["/health"] }
              (fun s => .ret () (ctxError { text := "boom" } s)) (sampleState [] [])
            = .ret () { ctxError { text := "boom" } (sampleState [] []) with
                log := (ctxError { text := "boom" } (sampleState [] [])).log ++ [en] }
          ∧ (en.level = .error ↔ (ctxError { text := "boom" } (sampleState [] [])).ctx.Errors ≠ [])
          ∧ (en.level = .info ↔ (ctxError { text := "boom" } (sampleState [] [])).ctx.Errors = [])
          ∧ en.fields.filter (fun kv => isErrorKey kv.1)
              = (ctxError { text := "boom" } (sampleState [] [])).ctx.Errors.enum.map
                  (fun p => ("error-" ++ toString p.1, FieldVal.str p.2.text))) :=
  access_log_entry sampleLib { TimeFormat := "2006", UTC := true, SkipPaths := ["/health"] }
    (fun s => .ret () (ctxError { text := "boom" } s)) (sampleState [] [])
    (ctxError { text := "boom" } (sampleState [] [])) rfl

/-- C7: the snapshot body requestDetails builds from the bytes it reads: a
body starting with an opening brace gives a map (what json.Unmarshal left in
it), one starting with an opening bracket a slice of maps, any other non-empty
body the string of the body, an empty body nil. -/
theorem snapshot_body_classification (lib : Lib) (s : State) :
    ∃ r s2, requestDetails lib .live s = (some r, s2)
      ∧ (∀ rest, s.ctx.Request.Body.pending = 123 :: rest →
          r.Body = .object (lib.unmarshalObject (123 :: rest)) ∧ r.Body.kind = .object)
      ∧ (∀ rest, s.ctx.Request.Body.pending = 91 :: rest →
          r.Body = .array (lib.unmarshalArray (91 :: rest)) ∧ r.Body.kind = .array)
      ∧ (∀ b rest, s.ctx.Request.Body.pending = b :: rest → b ≠ 123 → b ≠ 91 →
          r.Body = .string (b :: rest))
      ∧ (s.ctx.Request.Body.pending = [] → r.Body = .nil) := by
  refine ⟨_, (requestDetails lib .live s).2, Prod.ext (requestDetails_live_fst lib s) rfl,
    ?_, ?_, ?_, ?_⟩
  · intro rest h; simp [h, bodyValue, BodyValue.kind]
  · intro rest h; simp [h, bodyValue, BodyValue.kind]
  · intro b rest h h1 h2; simp [h, bodyValue, h1, h2]
  · intro h; simp [h, bodyValue]

theorem snapshot_body_classification_witness :
    ∃ r s2, requestDetails sampleLib .live (sampleState [] [123, 125]) = (some r, s2)
      ∧ r.Body = .object (some []) ∧ r.Body.kind = .object := by
  obtain ⟨r, s2, h, ho, -⟩ := snapshot_body_classification sampleLib (sampleState [] [123, 125])
  exact ⟨r, s2, h, ho [125] rfl⟩

/-- C10 (as stated, refuted): for the body of a space followed by `{}` the
first non-whitespace byte is the opening brace, yet requestDetails keeps the
body as a string. -/
theorem leading_space_object_kept_as_string :
    specBodyKind [32, 123, 125] = .object
    ∧ ∃ r s2, requestDetails sampleLib .live (sampleState [("err_req", ["true"])] [32, 123, 125])
          = (some r, s2)
        ∧ r.Body.kind = .string ∧ r.Body.kind ≠ specBodyKind [32, 123, 125] :=
  ⟨by decide, _, _, rfl, by decide, by decide⟩

/-- C10 (amended): requestDetails classifies the body by its first byte, with
no whitespace skipped: when the first byte is not whitespace the kind of the
snapshot body is the one the first non-whitespace byte gives (object for an
opening brace, array for an opening bracket, string otherwise), and a body
whose first byte is whitespace is kept as a string, whatever follows. -/
theorem body_classified_by_first_byte (lib : Lib) (s : State) :
    ∃ r s2, requestDetails lib .live s = (some r, s2)
      ∧ (∀ b rest, s.ctx.Request.Body.pending = b :: rest → isSpace b = false →
          r.Body.kind = specBodyKind (b :: rest))
      ∧ (∀ b rest, s.ctx.Request.Body.pending = b :: rest → isSpace b = true →
          r.Body = .string (b :: rest)) := by
  refine ⟨_, (requestDetails lib .live s).2, Prod.ext (requestDetails_live_fst lib s) rfl,
    ?_, ?_⟩
  · intro b rest h hb
    simp only [h, bodyValue, specBodyKind, List.dropWhile, hb]
    by_cases h1 : b = 123
    · simp [h1, BodyValue.kind]
    · by_cases h2 : b = 91
      · simp [h2, BodyValue.kind]
      · simp [h1, h2, BodyValue.kind]
  · intro b rest h hb
    have h1 : b ≠ 123 := by rintro rfl; simp [isSpace] at hb
    have h2 : b ≠ 91 := by rintro rfl; simp [isSpace] at hb
    simp [h, bodyValue, h1, h2]

theorem body_classified_by_first_byte_witness :
    ∃ r s2, requestDetails sampleLib .live (sampleState [] [10, 91, 93]) = (some r, s2)
      ∧ r.Body = .string [10, 91, 93] := by
  obtain ⟨r, s2, h, -, hs⟩ := body_classified_by_first_byte sampleLib (sampleState [] [10, 91, 93])
  exact ⟨r, s2, h, hs 10 [91, 93] rfl rfl⟩

theorem request_id_assigned_witness :
    ∃ s1, (∀ next, RequestIdMiddleware sampleUUID next sampleWithId = next s1)
      ∧ s1.ctx.Request.Header.Get "X-Request-Id" = "abc123"
      ∧ s1.ctx.Writer.header.Get "X-Request-Id" = "abc123" := by
  obtain ⟨s1, h, hp, -⟩ := request_id_assigned sampleUUID sampleUUID sampleWithId
  exact ⟨s1, h, hp (by decide)⟩

end zlog
